import Mathlib

/-!
Shallow embedding of the `spin-wasm-multi-compute` backend stack
(an AWS CDK declaration pass in Python, files `backend/component.py`,
`backend/datastore/infrastructure.py`, `backend/compute/infrastructure.py`,
`backend/load_balancer/infrastructure.py`).

The CDK construction pass is pure declaration: each Python constructor builds
an in-memory description of cloud resources.  We embed those descriptions as
Lean structures and the constructors as Lean functions.  Provider-side
success or failure of each declared step (Python exceptions aborting
`Backend.__init__`) is embedded separately as an environment of booleans
driving an abort-on-failure run that emits a trace of completed steps.
-/

/-- Modelled from the spec: the repository's `constants.py` is not under
`src/`; it provides the single shared service port for the application
runtime, referenced by all three workers and the splitter
(`constants.SPIN_PORT`). -/
def SPIN_PORT : Nat := 80

/-- Modelled from the spec: the repository's `constants.py` also provides the
application name used as the log stream prefix (`constants.APP_NAME`). -/
def APP_NAME : String := "spin-wasm-multi-compute"

/-- The network file system's default service port, used by
`allow_default_port_from` (the storage's default port; NFS port 2049 for
Amazon EFS). -/
def EFS_DEFAULT_PORT : Nat := 2049

/-- Removal policy of a declared resource (`cdk.RemovalPolicy`). -/
inductive RemovalPolicy
  | destroy
  | retain
  deriving DecidableEq, Repr

/-- `efs.FileSystem`: the shared network file system declared by `Datastore`. -/
structure FileSystem where
  file_system_id : String
  removal_policy : RemovalPolicy
  deriving DecidableEq, Repr

/-- `efs.AccessPoint`: a scoped access point, always created on exactly one
file system (`FileSystem.add_access_point`). -/
structure AccessPoint where
  access_point_id : String
  file_system_id : String
  deriving DecidableEq, Repr

/-- The resource nodes whose cross-references matter to the claims: the three
compute workers. -/
inductive ResourceNode
  | ec2Instance
  | ecsFargateService
  | lambdaFunction
  deriving DecidableEq, Repr

/-- One network-access grant recorded on the file system's connections by
`Datastore.allow_connections_from` (each call to
`connections.allow_default_port_from(other)`). -/
structure ConnectionGrant where
  peer : ResourceNode
  port : Nat
  deriving DecidableEq, Repr

/-- `Datastore.__init__`: one file system with a DESTROY removal policy and
one access point added to it.  The identifiers are the provider-issued
handles. -/
structure Datastore where
  efs_file_system : FileSystem
  efs_access_point : AccessPoint
  deriving DecidableEq, Repr

def mkDatastore (fsId apId : String) : Datastore :=
  { efs_file_system := { file_system_id := fsId, removal_policy := RemovalPolicy.destroy }
  , efs_access_point := { access_point_id := apId, file_system_id := fsId } }

/-- `Datastore.allow_connections_from(*others)`: for each peer, grant access
to the storage's default service port from that peer. -/
def allow_connections_from (others : List ResourceNode) : List ConnectionGrant :=
  others.map (fun other => { peer := other, port := EFS_DEFAULT_PORT })

/-! ## The VM worker (`Server`) -/

/-- Subnet placement of a declared instance (`ec2.SubnetType`). -/
inductive SubnetType
  | public
  | privateWithEgress
  deriving DecidableEq, Repr

/-- `ec2.Instance` as declared by `Server.__init__`: instance type, machine
image parameter, subnet placement, the managed policies attached to its role
by `_add_permissions`, and the ordered user-data command list assembled by
`_add_user_data`. -/
structure Ec2Instance where
  instance_type : String
  machine_image_ssm_parameter : String
  subnet_type : SubnetType
  managed_policies : List String
  user_data : List String
  deriving DecidableEq, Repr

/-- `Server._apt_get_update_and_upgrade`. -/
def apt_get_update_and_upgrade : List String :=
  [ "apt-get -y update"
  , "apt-get -y upgrade" ]

/-- `Server._install_efs_utils`. -/
def install_efs_utils : List String :=
  [ "apt-get -y install git binutils"
  , "git clone https://github.com/aws/efs-utils"
  , "cd efs-utils"
  , "./build-deb.sh"
  , "apt-get -y install ./build/amazon-efs-utils*deb"
  , "cd -" ]

/-- `Server._mount_efs`. -/
def mount_efs (efs_access_point_id efs_file_system_id efs_mount_path : String) :
    List String :=
  [ "mkdir -p " ++ efs_mount_path
  , "mount -t efs -o tls,accesspoint=" ++ efs_access_point_id ++ " "
      ++ efs_file_system_id ++ ":/ " ++ efs_mount_path ]

/-- `Server._install_rust_and_wasm`. -/
def install_rust_and_wasm : List String :=
  [ "echo Installing Rust / WASM dev toolchain and its requirements..."
  , "apt-get -y install build-essential"
  , "curl https://sh.rustup.rs -sSf | bash -s -- -y"
  , "/root/.cargo/bin/rustup target add wasm32-wasi" ]

/-- `Server._install_spin`. -/
def install_spin : List String :=
  [ "curl -L -O https://github.com/fermyon/spin/releases/download/v0.6.0/spin-v0.6.0-linux-amd64.tar.gz"
  , "tar -zxvf spin-v0.6.0-linux-amd64.tar.gz"
  , "mv spin /usr/local/bin/spin" ]

/-- `Server._seed_data_to_efs`.  The fourth command guards scaffold creation
behind a directory-existence test (`\x5b\x5b -d spin-hello-world \x5d\x5d ||`). -/
def seed_data_to_efs (efs_mount_path : String) : List String :=
  [ "cd " ++ efs_mount_path
  , "echo Creating and building a small application..."
  , "spin templates install --git https://github.com/fermyon/spin"
  , "[[ -d spin-hello-world ]] || spin new http-rust spin-hello-world --value project-description=\x27Rust http service\x27 --value http-base=/ --value http-path=/"
  , "/root/.cargo/bin/cargo build --manifest-path ./spin-hello-world/Cargo.toml --target wasm32-wasi --release"
  , "cd -" ]

/-- `Server._start_spin`: launch the runtime engine listening on the fixed
service port. -/
def start_spin (efs_mount_path : String) : List String :=
  [ "echo Launching Spin..."
  , "spin up --listen 0.0.0.0:" ++ toString SPIN_PORT ++ " --disable-cache --file "
      ++ efs_mount_path ++ "/spin-hello-world/spin.toml" ]

/-- `Server._add_user_data`: the seven bootstrap phases appended in order. -/
def add_user_data (efs_access_point_id efs_file_system_id efs_mount_path : String) :
    List String :=
  apt_get_update_and_upgrade
    ++ install_efs_utils
    ++ mount_efs efs_access_point_id efs_file_system_id efs_mount_path
    ++ install_rust_and_wasm
    ++ install_spin
    ++ seed_data_to_efs efs_mount_path
    ++ start_spin efs_mount_path

/-- `Server.__init__`: a t3.micro Ubuntu instance in a public subnet,
with Session Manager and EFS read/write managed policies, and the bootstrap
user data. -/
def mkServer (efs_access_point_id efs_file_system_id efs_mount_path : String) :
    Ec2Instance :=
  { instance_type := "t3.micro"
  , machine_image_ssm_parameter :=
      "/aws/service/canonical/ubuntu/server/20.04/stable/current/amd64/hvm/ebs-gp2/ami-id"
  , subnet_type := SubnetType.public
  , managed_policies :=
      [ "AmazonSSMManagedInstanceCore"
      , "AmazonElasticFileSystemClientReadWriteAccess" ]
  , user_data := add_user_data efs_access_point_id efs_file_system_id efs_mount_path }

/-! ## The container worker (`Container`) -/

/-- `ecs.AuthorizationConfig` inside `ecs.EfsVolumeConfiguration`. -/
structure EfsVolumeConfiguration where
  access_point_id : String
  iam : String
  file_system_id : String
  transit_encryption : String
  deriving DecidableEq, Repr

/-- One task-definition volume (`add_volume`). -/
structure Volume where
  name : String
  efs_volume_configuration : EfsVolumeConfiguration
  deriving DecidableEq, Repr

/-- `ecs.MountPoint`. -/
structure MountPoint where
  container_path : String
  read_only : Bool
  source_volume : String
  deriving DecidableEq, Repr

/-- `ecs.PortMapping`. -/
structure PortMapping where
  container_port : Nat
  deriving DecidableEq, Repr

/-- The container added by `Container._add_container`. -/
structure ContainerDefinition where
  name : String
  image_asset : String
  environment : List (String × String)
  log_stream_prefix : String
  port_mappings : List PortMapping
  mount_points : List MountPoint
  deriving DecidableEq, Repr

/-- `ecs.FargateTaskDefinition` as assembled by
`Container._create_ecs_fargate_task_definition`. -/
structure FargateTaskDefinition where
  cpu : Nat
  memory_limit_mib : Nat
  task_role_managed_policies : List String
  volumes : List Volume
  containers : List ContainerDefinition
  deriving DecidableEq, Repr

/-- `ecs.FargateService` declared by `Container.__init__`. -/
structure FargateService where
  assign_public_ip : Bool
  task_definition : FargateTaskDefinition
  deriving DecidableEq, Repr

/-- `Container._add_volume`. -/
def container_add_volume (efs_access_point_id efs_file_system_id efs_volume_name : String) :
    Volume :=
  { name := efs_volume_name
  , efs_volume_configuration :=
      { access_point_id := efs_access_point_id
      , iam := "ENABLED"
      , file_system_id := efs_file_system_id
      , transit_encryption := "ENABLED" } }

/-- `Container._add_container`. -/
def container_add_container
    (efs_mount_path efs_mount_path_env_var_name efs_volume_name : String) :
    ContainerDefinition :=
  { name := "Spin"
  , image_asset := "backend/compute/runtime"
  , environment := [(efs_mount_path_env_var_name, efs_mount_path)]
  , log_stream_prefix := APP_NAME
  , port_mappings := [{ container_port := SPIN_PORT }]
  , mount_points :=
      [ { container_path := efs_mount_path
        , read_only := false
        , source_volume := efs_volume_name } ] }

/-- `Container._create_ecs_fargate_task_definition`. -/
def create_ecs_fargate_task_definition
    (efs_access_point_id efs_file_system_id efs_mount_path efs_mount_path_env_var_name :
      String) : FargateTaskDefinition :=
  let efs_volume_name := "efs"
  { cpu := 256
  , memory_limit_mib := 512
  , task_role_managed_policies := ["AmazonElasticFileSystemClientReadWriteAccess"]
  , volumes := [container_add_volume efs_access_point_id efs_file_system_id efs_volume_name]
  , containers :=
      [container_add_container efs_mount_path efs_mount_path_env_var_name efs_volume_name] }

/-- `Container.__init__`: a Fargate service with a public IP running the task
definition. -/
def mkContainer
    (efs_access_point_id efs_file_system_id efs_mount_path efs_mount_path_env_var_name :
      String) : FargateService :=
  { assign_public_ip := true
  , task_definition :=
      create_ecs_fargate_task_definition efs_access_point_id efs_file_system_id
        efs_mount_path efs_mount_path_env_var_name }

/-! ## The function worker (`Function`) -/

/-- `lambda_.DockerImageFunction` declared by `Function.__init__`: note that it
receives the access-point object itself (not just its id) and mounts it at
the shared mount path. -/
structure LambdaFunction where
  allow_public_subnet : Bool
  image_asset : String
  environment : List (String × String)
  filesystem_access_point : AccessPoint
  filesystem_mount_path : String
  deriving DecidableEq, Repr

/-- `Function.__init__`. -/
def mkFunction (efs_access_point : AccessPoint)
    (efs_mount_path efs_mount_path_env_var_name : String) : LambdaFunction :=
  { allow_public_subnet := true
  , image_asset := "backend/compute/runtime"
  , environment := [(efs_mount_path_env_var_name, efs_mount_path)]
  , filesystem_access_point := efs_access_point
  , filesystem_mount_path := efs_mount_path }

/-! ## The compute topology (`Compute`) -/

/-- `Compute.__init__`: the three workers plus the dependency edges added with
`node.add_dependency` — each pair `(a, b)` records that node `a` declares a
provisioning dependency on node `b`. -/
structure Compute where
  efs_mount_path : String
  efs_mount_path_env_var_name : String
  ec2_instance : Ec2Instance
  ecs_fargate_service : FargateService
  lambda_function : LambdaFunction
  dependencies : List (ResourceNode × ResourceNode)
  deriving DecidableEq, Repr

def mkCompute (efs_access_point : AccessPoint) (efs_file_system_id : String) : Compute :=
  let efs_mount_path := "/mnt/app"
  let efs_mount_path_env_var_name := "EFS_MOUNT_PATH"
  let server :=
    mkServer efs_access_point.access_point_id efs_file_system_id efs_mount_path
  let container :=
    mkContainer efs_access_point.access_point_id efs_file_system_id efs_mount_path
      efs_mount_path_env_var_name
  let lambdaFn :=
    mkFunction efs_access_point efs_mount_path efs_mount_path_env_var_name
  { efs_mount_path := efs_mount_path
  , efs_mount_path_env_var_name := efs_mount_path_env_var_name
  , ec2_instance := server
  , ecs_fargate_service := container
  , lambda_function := lambdaFn
  , dependencies :=
      [ (ResourceNode.ecsFargateService, ResourceNode.ec2Instance)
      , (ResourceNode.lambdaFunction, ResourceNode.ec2Instance) ] }

/-! ## The traffic splitter (`LoadBalancer`) -/

/-- The shapes a target group can address: a direct instance target, a
registered managed-service target, or a function-invoke target. -/
inductive TgTarget
  | instanceTarget (i : Ec2Instance)
  | serviceTarget (s : FargateService)
  | lambdaTarget (f : LambdaFunction)
  deriving DecidableEq, Repr

/-- `elasticloadbalancingv2.ApplicationTargetGroup`: the EC2 and ECS groups
carry a port and protocol; the Lambda group carries neither. -/
structure ApplicationTargetGroup where
  port : Option Nat
  protocol : Option String
  targets : List TgTarget
  deriving DecidableEq, Repr

/-- `elasticloadbalancingv2.WeightedTargetGroup`. -/
structure WeightedTargetGroup where
  target_group : ApplicationTargetGroup
  weight : Nat
  deriving DecidableEq, Repr

/-- The single weighted-forward listener action
(`ListenerAction.weighted_forward`). -/
structure ListenerAction where
  target_groups : List WeightedTargetGroup
  deriving DecidableEq, Repr

/-- A listener (`add_listener` then `add_action`). -/
structure Listener where
  port : Nat
  actions : List ListenerAction
  deriving DecidableEq, Repr

/-- The inbound allow-rule `_elb_alb.connections.allow_to(ec2_instance, ...)`
opened from the balancer to the VM worker's fixed service port. -/
structure AlbAllowTo where
  to_instance : Ec2Instance
  protocol : String
  from_port : Nat
  to_port : Nat
  deriving DecidableEq, Repr

/-- `elasticloadbalancingv2.ApplicationLoadBalancer` plus everything
`LoadBalancer.__init__` hangs off it. -/
structure LoadBalancer where
  internet_facing : Bool
  connections : List AlbAllowTo
  listeners : List Listener
  endpoint : String
  deriving DecidableEq, Repr

/-- The balancer's externally resolvable address
(`load_balancer_dns_name`): a CloudFormation attribute token, always a
non-empty handle string during the declaration pass. -/
def load_balancer_dns_name : String := "ELBALB.DNSName"

/-- `LoadBalancer._create_ec2_target_group`: opens the allow-rule to the
instance's fixed service port and builds the instance-shaped weighted group. -/
def create_ec2_target_group (ec2_instance : Ec2Instance) (weight : Nat) :
    AlbAllowTo × WeightedTargetGroup :=
  ( { to_instance := ec2_instance
    , protocol := "TCP"
    , from_port := SPIN_PORT
    , to_port := SPIN_PORT }
  , { target_group :=
        { port := some SPIN_PORT
        , protocol := some "HTTP"
        , targets := [TgTarget.instanceTarget ec2_instance] }
    , weight := weight } )

/-- `LoadBalancer._create_ecs_target_group`. -/
def create_ecs_target_group (ecs_fargate_service : FargateService) (weight : Nat) :
    WeightedTargetGroup :=
  { target_group :=
      { port := some SPIN_PORT
      , protocol := some "HTTP"
      , targets := [TgTarget.serviceTarget ecs_fargate_service] }
  , weight := weight }

/-- `LoadBalancer._create_lambda_target_group`. -/
def create_lambda_target_group (lambda_function : LambdaFunction) (weight : Nat) :
    WeightedTargetGroup :=
  { target_group :=
      { port := none
      , protocol := none
      , targets := [TgTarget.lambdaTarget lambda_function] }
  , weight := weight }

/-- `LoadBalancer.__init__` generalized over the three per-target weights,
exactly as its three private target-group builders accept them.  The source
constructor itself takes no weight inputs; see `mkLoadBalancer`. -/
def mkLoadBalancerWeighted (ec2_instance : Ec2Instance)
    (ecs_fargate_service : FargateService) (lambda_function : LambdaFunction)
    (wVm wSvc wFn : Nat) : LoadBalancer :=
  let ec2Pair := create_ec2_target_group ec2_instance wVm
  let ecsTg := create_ecs_target_group ecs_fargate_service wSvc
  let lambdaTg := create_lambda_target_group lambda_function wFn
  { internet_facing := true
  , connections := [ec2Pair.1]
  , listeners :=
      [ { port := 80
        , actions := [{ target_groups := [ec2Pair.2, ecsTg, lambdaTg] }] } ]
  , endpoint := load_balancer_dns_name }

/-- `LoadBalancer.__init__` as written: every builder is invoked with
`weight=1`; the constructor accepts no weights input. -/
def mkLoadBalancer (ec2_instance : Ec2Instance)
    (ecs_fargate_service : FargateService) (lambda_function : LambdaFunction) :
    LoadBalancer :=
  mkLoadBalancerWeighted ec2_instance ecs_fargate_service lambda_function 1 1 1

/-! ## The top-level orchestrator (`Backend`) -/

/-- `Backend.__init__` as a pure declaration: datastore, compute (receiving
the storage identity handles), the storage connection grants naming the three
compute workers, the load balancer (receiving the three worker handles), and
the surfaced endpoint output. -/
structure BackendStack where
  datastore : Datastore
  compute : Compute
  grants : List ConnectionGrant
  load_balancer : LoadBalancer
  load_balancer_endpoint : String
  deriving DecidableEq, Repr

def mkBackend (fsId apId : String) : BackendStack :=
  let datastore := mkDatastore fsId apId
  let compute :=
    mkCompute datastore.efs_access_point datastore.efs_file_system.file_system_id
  let grants :=
    allow_connections_from
      [ ResourceNode.ec2Instance
      , ResourceNode.ecsFargateService
      , ResourceNode.lambdaFunction ]
  let lb :=
    mkLoadBalancer compute.ec2_instance compute.ecs_fargate_service
      compute.lambda_function
  { datastore := datastore
  , compute := compute
  , grants := grants
  , load_balancer := lb
  , load_balancer_endpoint := lb.endpoint }

/-! ## Orchestration run with provider failures

`Backend.__init__` is a straight-line sequence of declarations.  A fatal
provider-side failure of any declaration raises a Python exception, aborting
the constructor: nothing after the failing step runs, and in particular the
`CfnOutput` carrying the endpoint is never created.  We embed this as a run
over an environment of booleans (one per fallible declaration) that emits
the trace of completed steps and, on full success, the endpoint output. -/

/-- The declarations performed, in source order, by `Backend.__init__` and
the constructors it calls. -/
inductive Step
  | resolveNetworkPlacement
  | createStorage
  | createServer
  | createContainer
  | createFunction
  | authorizeConnections
  | createAlb
  | createTargetGroupEc2
  | createTargetGroupEcs
  | createTargetGroupLambda
  | createListenerRule
  | surfaceEndpoint
  deriving DecidableEq, Repr

/-- Which declarations the external provider accepts; `false` means the
declaration fails fatally. -/
structure ProviderEnv where
  storageOk : Bool
  serverOk : Bool
  containerOk : Bool
  functionOk : Bool
  authOk : Bool
  albOk : Bool
  tgEc2Ok : Bool
  tgEcsOk : Bool
  tgLambdaOk : Bool
  ruleOk : Bool
  deriving DecidableEq, Repr

/-- The fully ordered declaration sequence of `Backend.__init__`. -/
def deploySequence : List Step :=
  [ Step.resolveNetworkPlacement
  , Step.createStorage
  , Step.createServer
  , Step.createContainer
  , Step.createFunction
  , Step.authorizeConnections
  , Step.createAlb
  , Step.createTargetGroupEc2
  , Step.createTargetGroupEcs
  , Step.createTargetGroupLambda
  , Step.createListenerRule
  , Step.surfaceEndpoint ]

/-- The run of `Backend.__init__` under a provider environment: the trace of
completed steps and the surfaced endpoint output.  Each failing declaration
aborts the remainder (Python exception propagation); only a fully successful
run reaches the `CfnOutput` step and produces the endpoint. -/
def backendDeploy (env : ProviderEnv) : List Step × Option String :=
  let t := [Step.resolveNetworkPlacement]
  if !env.storageOk then (t, none) else
  let t := t ++ [Step.createStorage]
  if !env.serverOk then (t, none) else
  let t := t ++ [Step.createServer]
  if !env.containerOk then (t, none) else
  let t := t ++ [Step.createContainer]
  if !env.functionOk then (t, none) else
  let t := t ++ [Step.createFunction]
  if !env.authOk then (t, none) else
  let t := t ++ [Step.authorizeConnections]
  if !env.albOk then (t, none) else
  let t := t ++ [Step.createAlb]
  if !env.tgEc2Ok then (t, none) else
  let t := t ++ [Step.createTargetGroupEc2]
  if !env.tgEcsOk then (t, none) else
  let t := t ++ [Step.createTargetGroupEcs]
  if !env.tgLambdaOk then (t, none) else
  let t := t ++ [Step.createTargetGroupLambda]
  if !env.ruleOk then (t, none) else
  let t := t ++ [Step.createListenerRule]
  (t ++ [Step.surfaceEndpoint], some load_balancer_dns_name)

/-- The all-successful provider environment. -/
def allOk : ProviderEnv :=
  { storageOk := true, serverOk := true, containerOk := true, functionOk := true
  , authOk := true, albOk := true, tgEc2Ok := true, tgEcsOk := true
  , tgLambdaOk := true, ruleOk := true }

/-! ## Derived views used by the claims -/

/-- The weighted target groups reachable from the balancer's declared
listeners and actions — the declared weighted-forward rule. -/
def declaredRule (lb : LoadBalancer) : List WeightedTargetGroup :=
  (lb.listeners.flatMap (fun l => l.actions)).flatMap (fun a => a.target_groups)

/-- The per-target weights of the declared rule, in declaration order. -/
def declaredWeights (lb : LoadBalancer) : List Nat :=
  (declaredRule lb).map (fun wtg => wtg.weight)

/-- The sum of configured weights recoverable from the declared rule. -/
def ruleWeightSum (lb : LoadBalancer) : Nat :=
  (declaredWeights lb).sum

/-- The configured runtime environment mapping of each worker variant.  The
service and function workers carry an `environment` field; the EC2 instance
declaration has no environment mapping at all (the mount path reaches it only
as literal text inside its user-data commands). -/
def workerEnv (c : Compute) : ResourceNode → List (String × String)
  | ResourceNode.ec2Instance => []
  | ResourceNode.ecsFargateService =>
      (c.ecs_fargate_service.task_definition.containers.flatMap
        (fun cd => cd.environment))
  | ResourceNode.lambdaFunction => c.lambda_function.environment

/-- A linear provisioning order respects the declared dependency edges when
every dependent node appears strictly after the node it depends on. -/
def respectsDependencies (deps : List (ResourceNode × ResourceNode))
    (order : List ResourceNode) : Prop :=
  ∀ p ∈ deps, p.1 ∈ order → p.2 ∈ order →
    order.indexOf p.2 < order.indexOf p.1

instance (deps : List (ResourceNode × ResourceNode)) (order : List ResourceNode) :
    Decidable (respectsDependencies deps order) := by
  unfold respectsDependencies
  infer_instance

/-- Shell semantics of the guarded scaffold-creation command
`\x5b\x5b -d spin-hello-world \x5d\x5d || spin new http-rust spin-hello-world ...`
(the fourth command of `Server._seed_data_to_efs`): the state is the content
of the `spin-hello-world` directory on shared storage (`none` when absent);
`spin new` runs, creating a fresh scaffold, only when the directory-existence
test fails. -/
def runSeedGuard (dir : Option String) : Option String :=
  match dir with
  | some content => some content
  | none => some "spin new http-rust spin-hello-world"

/-- All of the resources named by the endpoint claim — the shared storage,
the three workers, the three target groups, and the listener rule — were
created (appear in the run's completed-step trace). -/
def allResourcesCreated (t : List Step) : Prop :=
  Step.createStorage ∈ t ∧ Step.createServer ∈ t ∧ Step.createContainer ∈ t
    ∧ Step.createFunction ∈ t ∧ Step.createTargetGroupEc2 ∈ t
    ∧ Step.createTargetGroupEcs ∈ t ∧ Step.createTargetGroupLambda ∈ t
    ∧ Step.createListenerRule ∈ t

instance (t : List Step) : Decidable (allResourcesCreated t) := by
  unfold allResourcesCreated
  infer_instance

/-! # Theorems -/

/-- C2: the surfaced `public_endpoint` is a non-empty string exactly when the
shared storage, the three workers, the three target groups, and the listener
rule were all created without fatal error; on any fatal failure no partial
endpoint is produced (the run's output is `none`). -/
theorem claim_C2_endpoint_iff_all_created (env : ProviderEnv) :
    ((backendDeploy env).2.getD ("") ≠ ""
      ↔ allResourcesCreated (backendDeploy env).1)
    ∧ ((backendDeploy env).2 = none
      ↔ ¬ allResourcesCreated (backendDeploy env).1) := by
  rcases env with ⟨s, sv, c, f, a, alb, t1, t2, t3, r⟩
  cases s <;> cases sv <;> cases c <;> cases f <;> cases a <;> cases alb <;>
    cases t1 <;> cases t2 <;> cases t3 <;> cases r <;> decide

theorem claim_C2_endpoint_iff_all_created_witness :
    ((backendDeploy allOk).2.getD ("") ≠ ""
      ↔ allResourcesCreated (backendDeploy allOk).1)
    ∧ ((backendDeploy { allOk with ruleOk := false }).2 = none
      ↔ ¬ allResourcesCreated
          (backendDeploy { allOk with ruleOk := false }).1) :=
  ⟨(claim_C2_endpoint_iff_all_created allOk).1
  , (claim_C2_endpoint_iff_all_created { allOk with ruleOk := false }).2⟩

/-- C3 (counterexample): the splitter the source constructor builds carries
weight 1 on every target — in particular the VM target's weight is never 0 —
because `LoadBalancer.__init__` accepts no weights input. -/
theorem claim_C3_counterexample :
    declaredWeights (mkBackend ("fs-1") ("ap-1")).load_balancer = [1, 1, 1]
    ∧ declaredWeights (mkBackend ("fs-1") ("ap-1")).load_balancer ≠ [0, 2, 1] :=
  ⟨rfl, by decide⟩

/-- C3 (amended): the source constructor `LoadBalancer.__init__` accepts no
weights input — every deployment's rule carries weight 1 per target — but its
three private target-group builders do each accept a weight, and composing
them with weights VM:0, Service:2, Function:1 yields a weighted-forward rule
that retains all three targets, assigns the VM target weight 0, and gives the
Service target twice the Function target's weight. -/
theorem claim_C3_weighted_builders (i : Ec2Instance) (s : FargateService)
    (f : LambdaFunction) :
    declaredRule (mkLoadBalancerWeighted i s f 0 2 1)
      = [ (create_ec2_target_group i 0).2
        , create_ecs_target_group s 2
        , create_lambda_target_group f 1 ]
    ∧ declaredWeights (mkLoadBalancerWeighted i s f 0 2 1) = [0, 2 * 1, 1]
    ∧ (declaredRule (mkLoadBalancerWeighted i s f 0 2 1)).map
        (fun w => w.target_group.targets)
      = [ [TgTarget.instanceTarget i], [TgTarget.serviceTarget s]
        , [TgTarget.lambdaTarget f] ]
    ∧ mkLoadBalancer i s f = mkLoadBalancerWeighted i s f 1 1 1 :=
  ⟨rfl, rfl, rfl, rfl⟩

/-- C4: every deployment's splitter declares exactly one weighted target
group per worker variant — instance-shaped for the VM worker, service-shaped
for the container worker, function-invoke-shaped for the function worker —
each with default weight 1, on one weighted-forward action of a single
listener at port 80, and the sum of configured weights is recoverable from
the declared rule. -/
theorem claim_C4_rule_shape (fsId apId : String) :
    (mkBackend fsId apId).load_balancer.listeners.map Listener.port = [80]
    ∧ ((mkBackend fsId apId).load_balancer.listeners.flatMap
        (fun l => l.actions)).length = 1
    ∧ (declaredRule (mkBackend fsId apId).load_balancer).map
        (fun w => w.target_group.targets)
      = [ [TgTarget.instanceTarget (mkBackend fsId apId).compute.ec2_instance]
        , [TgTarget.serviceTarget
            (mkBackend fsId apId).compute.ecs_fargate_service]
        , [TgTarget.lambdaTarget (mkBackend fsId apId).compute.lambda_function] ]
    ∧ declaredWeights (mkBackend fsId apId).load_balancer = [1, 1, 1]
    ∧ ruleWeightSum (mkBackend fsId apId).load_balancer = 1 + 1 + 1 :=
  ⟨rfl, rfl, rfl, rfl, rfl⟩

/-- C7: the orchestrator's completed-step trace is always a prefix of the
canonical strictly ordered declaration sequence — no step begins before every
predecessor completes — and a fully successful run performs exactly that
sequence, ending by surfacing the endpoint. -/
theorem claim_C7_strict_step_order (env : ProviderEnv) :
    (∃ n : Fin 13, (backendDeploy env).1 = deploySequence.take n.val)
    ∧ (backendDeploy allOk).1 = deploySequence := by
  constructor
  · rcases env with ⟨s, sv, c, f, a, alb, t1, t2, t3, r⟩
    cases s <;> cases sv <;> cases c <;> cases f <;> cases a <;> cases alb <;>
      cases t1 <;> cases t2 <;> cases t3 <;> cases r <;> decide
  · rfl

/-- C1: In the dependency graph produced by `Compute.__init__`, both the
ServiceWorker node and the FunctionWorker node carry a declared provisioning
dependency on the VMWorker node, neither depends on the other, and in every
provisioning order that respects the declared dependencies the VMWorker node
precedes both other worker nodes. -/
theorem claim_C1_vm_precedes_workers (ap : AccessPoint) (fsId : String)
    (order : List ResourceNode)
    (hresp : respectsDependencies (mkCompute ap fsId).dependencies order)
    (hvm : ResourceNode.ec2Instance ∈ order)
    (hsvc : ResourceNode.ecsFargateService ∈ order)
    (hfn : ResourceNode.lambdaFunction ∈ order) :
    ((ResourceNode.ecsFargateService, ResourceNode.ec2Instance)
        ∈ (mkCompute ap fsId).dependencies
      ∧ (ResourceNode.lambdaFunction, ResourceNode.ec2Instance)
        ∈ (mkCompute ap fsId).dependencies
      ∧ (ResourceNode.ecsFargateService, ResourceNode.lambdaFunction)
        ∉ (mkCompute ap fsId).dependencies
      ∧ (ResourceNode.lambdaFunction, ResourceNode.ecsFargateService)
        ∉ (mkCompute ap fsId).dependencies)
    ∧ order.indexOf ResourceNode.ec2Instance
        < order.indexOf ResourceNode.ecsFargateService
    ∧ order.indexOf ResourceNode.ec2Instance
        < order.indexOf ResourceNode.lambdaFunction := by
  have hdeps : (mkCompute ap fsId).dependencies
      = [ (ResourceNode.ecsFargateService, ResourceNode.ec2Instance)
        , (ResourceNode.lambdaFunction, ResourceNode.ec2Instance) ] := rfl
  refine ⟨⟨?_, ?_, ?_, ?_⟩, ?_, ?_⟩
  · rw [hdeps]
    exact List.mem_cons_self _ _
  · rw [hdeps]
    exact List.mem_cons_of_mem _ (List.mem_cons_self _ _)
  · rw [hdeps]
    decide
  · rw [hdeps]
    decide
  · exact hresp (ResourceNode.ecsFargateService, ResourceNode.ec2Instance)
      (by rw [hdeps]; exact List.mem_cons_self _ _) hsvc hvm
  · exact hresp (ResourceNode.lambdaFunction, ResourceNode.ec2Instance)
      (by rw [hdeps]; exact List.mem_cons_of_mem _ (List.mem_cons_self _ _)) hfn hvm

theorem claim_C1_vm_precedes_workers_witness :
    ((ResourceNode.ecsFargateService, ResourceNode.ec2Instance)
        ∈ (mkCompute (mkDatastore ("fs-1") ("ap-1")).efs_access_point
            ("fs-1")).dependencies
      ∧ (ResourceNode.lambdaFunction, ResourceNode.ec2Instance)
        ∈ (mkCompute (mkDatastore ("fs-1") ("ap-1")).efs_access_point
            ("fs-1")).dependencies
      ∧ (ResourceNode.ecsFargateService, ResourceNode.lambdaFunction)
        ∉ (mkCompute (mkDatastore ("fs-1") ("ap-1")).efs_access_point
            ("fs-1")).dependencies
      ∧ (ResourceNode.lambdaFunction, ResourceNode.ecsFargateService)
        ∉ (mkCompute (mkDatastore ("fs-1") ("ap-1")).efs_access_point
            ("fs-1")).dependencies)
    ∧ List.indexOf ResourceNode.ec2Instance
        [ResourceNode.ec2Instance, ResourceNode.ecsFargateService,
          ResourceNode.lambdaFunction]
        < List.indexOf ResourceNode.ecsFargateService
            [ResourceNode.ec2Instance, ResourceNode.ecsFargateService,
              ResourceNode.lambdaFunction]
    ∧ List.indexOf ResourceNode.ec2Instance
        [ResourceNode.ec2Instance, ResourceNode.ecsFargateService,
          ResourceNode.lambdaFunction]
        < List.indexOf ResourceNode.lambdaFunction
            [ResourceNode.ec2Instance, ResourceNode.ecsFargateService,
              ResourceNode.lambdaFunction] :=
  claim_C1_vm_precedes_workers (mkDatastore ("fs-1") ("ap-1")).efs_access_point
    ("fs-1")
    [ResourceNode.ec2Instance, ResourceNode.ecsFargateService,
      ResourceNode.lambdaFunction]
    (by decide) (by decide) (by decide) (by decide)

/-- C5: Every one of the three workers is configured with the identical
mount-path string and a reference to the single shared-storage access point:
the container's mount point and volume, the function's filesystem
configuration, and the VM's mount commands all use the common path and the
same access-point identity. -/
theorem claim_C5_shared_mount_and_access_point (ap : AccessPoint) (fsId : String) :
    (mkCompute ap fsId).efs_mount_path = "/mnt/app"
    ∧ ((mkCompute ap fsId).ecs_fargate_service.task_definition.containers.flatMap
        (fun cd => cd.mount_points)).map MountPoint.container_path
      = [(mkCompute ap fsId).efs_mount_path]
    ∧ ((mkCompute ap fsId).ecs_fargate_service.task_definition.volumes.map
        (fun v => v.efs_volume_configuration.access_point_id))
      = [ap.access_point_id]
    ∧ (mkCompute ap fsId).lambda_function.filesystem_mount_path
      = (mkCompute ap fsId).efs_mount_path
    ∧ (mkCompute ap fsId).lambda_function.filesystem_access_point = ap
    ∧ ("mkdir -p " ++ (mkCompute ap fsId).efs_mount_path)
      ∈ (mkCompute ap fsId).ec2_instance.user_data
    ∧ ("mount -t efs -o tls,accesspoint=" ++ ap.access_point_id ++ " "
        ++ fsId ++ ":/ " ++ (mkCompute ap fsId).efs_mount_path)
      ∈ (mkCompute ap fsId).ec2_instance.user_data := by
  refine ⟨rfl, rfl, rfl, rfl, ?_, ?_, ?_⟩
  · cases ap
    rfl
  · simp [mkCompute, mkServer, add_user_data, apt_get_update_and_upgrade,
      install_efs_utils, mount_efs, install_rust_and_wasm, install_spin,
      seed_data_to_efs, start_spin]
  · simp [mkCompute, mkServer, add_user_data, apt_get_update_and_upgrade,
      install_efs_utils, mount_efs, install_rust_and_wasm, install_spin,
      seed_data_to_efs, start_spin]

/-- C6: The storage-connection authorization performed by `Backend.__init__`
names exactly the three compute workers — no more, no fewer — and each grant
opens the storage's default service port from that worker. -/
theorem claim_C6_authorization_exact (fsId apId : String) :
    (mkBackend fsId apId).grants.map ConnectionGrant.peer
      = [ResourceNode.ec2Instance, ResourceNode.ecsFargateService,
          ResourceNode.lambdaFunction]
    ∧ (mkBackend fsId apId).grants.map ConnectionGrant.port
      = [EFS_DEFAULT_PORT, EFS_DEFAULT_PORT, EFS_DEFAULT_PORT] :=
  ⟨rfl, rfl⟩

/-- C8: The VM worker's bootstrap user data is exactly this ordered command
sequence — OS update, storage-client installation, shared-storage mount,
language/build toolchain installation, runtime-engine installation,
application build/seed into shared storage, and finally the runtime-engine
launch listening on the fixed service port, which is its last command. -/
theorem claim_C8_bootstrap_order (apId fsId mp : String) :
    (mkServer apId fsId mp).user_data
      = [ "apt-get -y update"
        , "apt-get -y upgrade"
        , "apt-get -y install git binutils"
        , "git clone https://github.com/aws/efs-utils"
        , "cd efs-utils"
        , "./build-deb.sh"
        , "apt-get -y install ./build/amazon-efs-utils*deb"
        , "cd -"
        , "mkdir -p " ++ mp
        , "mount -t efs -o tls,accesspoint=" ++ apId ++ " " ++ fsId ++ ":/ " ++ mp
        , "echo Installing Rust / WASM dev toolchain and its requirements..."
        , "apt-get -y install build-essential"
        , "curl https://sh.rustup.rs -sSf | bash -s -- -y"
        , "/root/.cargo/bin/rustup target add wasm32-wasi"
        , "curl -L -O https://github.com/fermyon/spin/releases/download/v0.6.0/spin-v0.6.0-linux-amd64.tar.gz"
        , "tar -zxvf spin-v0.6.0-linux-amd64.tar.gz"
        , "mv spin /usr/local/bin/spin"
        , "cd " ++ mp
        , "echo Creating and building a small application..."
        , "spin templates install --git https://github.com/fermyon/spin"
        , "[[ -d spin-hello-world ]] || spin new http-rust spin-hello-world --value project-description=\x27Rust http service\x27 --value http-base=/ --value http-path=/"
        , "/root/.cargo/bin/cargo build --manifest-path ./spin-hello-world/Cargo.toml --target wasm32-wasi --release"
        , "cd -"
        , "echo Launching Spin..."
        , "spin up --listen 0.0.0.0:" ++ toString SPIN_PORT ++ " --disable-cache --file "
            ++ mp ++ "/spin-hello-world/spin.toml" ]
    ∧ (mkServer apId fsId mp).user_data.getLast?
      = some ("spin up --listen 0.0.0.0:" ++ toString SPIN_PORT
          ++ " --disable-cache --file " ++ mp ++ "/spin-hello-world/spin.toml") :=
  ⟨rfl, rfl⟩

/-- C9 (counterexample): the VM worker's configured environment mapping is
empty — it does not contain the shared variable bound to the mount path. -/
theorem claim_C9_counterexample :
    (("EFS_MOUNT_PATH", "/mnt/app") ∉
      workerEnv (mkCompute (mkDatastore ("fs-1") ("ap-1")).efs_access_point ("fs-1"))
        ResourceNode.ec2Instance)
    ∧ workerEnv (mkCompute (mkDatastore ("fs-1") ("ap-1")).efs_access_point ("fs-1"))
        ResourceNode.ec2Instance = [] := by
  exact ⟨by decide, rfl⟩

/-- C9 (amended): the service worker and the function worker each carry the
shared environment-variable name bound to the common mount path in their
configured environment mapping; the VM worker has no configured environment
mapping at all — the mount path reaches it only as literal text inside its
bootstrap commands. -/
theorem claim_C9_env_var_mapping (ap : AccessPoint) (fsId : String) :
    workerEnv (mkCompute ap fsId) ResourceNode.ecsFargateService
      = [((mkCompute ap fsId).efs_mount_path_env_var_name,
          (mkCompute ap fsId).efs_mount_path)]
    ∧ workerEnv (mkCompute ap fsId) ResourceNode.lambdaFunction
      = [((mkCompute ap fsId).efs_mount_path_env_var_name,
          (mkCompute ap fsId).efs_mount_path)]
    ∧ workerEnv (mkCompute ap fsId) ResourceNode.ec2Instance = []
    ∧ ("mkdir -p " ++ (mkCompute ap fsId).efs_mount_path)
      ∈ (mkCompute ap fsId).ec2_instance.user_data := by
  refine ⟨rfl, rfl, rfl, ?_⟩
  simp [mkCompute, mkServer, add_user_data, apt_get_update_and_upgrade,
    install_efs_utils, mount_efs, install_rust_and_wasm, install_spin,
    seed_data_to_efs, start_spin]

/-- C10: The scaffold-creation command of the VM worker's seed step is guarded
by a directory-existence check: it is exactly the fourth command of
`_seed_data_to_efs`, its shell semantics leaves an existing scaffold
unchanged, re-running it is idempotent, and on absent scaffold it creates
one. -/
theorem claim_C10_seed_guard_idempotent (mp : String) (dir : Option String) :
    (seed_data_to_efs mp)[3]?
      = some ("[[ -d spin-hello-world ]] || spin new http-rust spin-hello-world --value project-description=\x27Rust http service\x27 --value http-base=/ --value http-path=/")
    ∧ runSeedGuard (runSeedGuard dir) = runSeedGuard dir
    ∧ (∀ content, runSeedGuard (some content) = some content)
    ∧ runSeedGuard none ≠ none := by
  refine ⟨rfl, ?_, fun content => rfl, by simp [runSeedGuard]⟩
  cases dir <;> rfl

theorem claim_C10_seed_guard_idempotent_witness :
    (seed_data_to_efs ("/mnt/app"))[3]?
      = some ("[[ -d spin-hello-world ]] || spin new http-rust spin-hello-world --value project-description=\x27Rust http service\x27 --value http-base=/ --value http-path=/")
    ∧ runSeedGuard (runSeedGuard (some ("existing scaffold")))
      = runSeedGuard (some ("existing scaffold"))
    ∧ (∀ content, runSeedGuard (some content) = some content)
    ∧ runSeedGuard none ≠ none :=
  claim_C10_seed_guard_idempotent ("/mnt/app") (some ("existing scaffold"))
